import Mathlib

/-
Verification of the two ROS2 launch descriptor scripts of this repository:
`launch/gazebo_launch.py` (simulation launcher) and `launch/rviz2_launch.py`
(visualization launcher).  Both scripts resolve package share directories,
read a URDF file and return a `LaunchDescription`, i.e. an ordered list of
launch actions.  We embed them shallowly: the package-path resolver and the
filesystem are explicit function arguments, a failed file open is `none`,
and each embedded launcher also reports the list of file paths it opened.
-/

namespace LaunchSpec

/-- Value stored in a node parameter dictionary.  The scripts only use
string values (the URDF contents) and booleans (`use_sim_time`). -/
inductive ParamValue
  | str (s : String)
  | bool (b : Bool)
  deriving DecidableEq, Repr

/-- A launch action descriptor exactly as constructed by the scripts:
a `Node` (package, executable, parameter dictionary, argument list,
optional output mode), an `IncludeLaunchDescription` of a python launch
source with launch arguments, or a `DeclareLaunchArgument`. -/
inductive LaunchAction
  | node (pkg exe : String) (parameters : List (String × ParamValue))
      (arguments : List String) (output : Option String)
  | includeLaunch (source : String) (launchArguments : List (String × String))
  | declareLaunchArgument (name defaultValue description : String)
  deriving DecidableEq, Repr

/-- The package-path resolver, `get_package_share_directory`. -/
abbrev Resolver := String → String

/-- The filesystem seen through `open(...).read()`: `none` means the open
raises (file missing), `some s` means the file holds contents `s`. -/
abbrev Fs := String → Option String

/-- One step of `os.path.join` (posixpath semantics): an absolute second
component replaces the path, otherwise a separator is inserted unless the
accumulated path is empty or already ends with one. -/
def joinOne (path b : String) : String :=
  if b.data.head? = some '/' then b
  else if path.data = [] ∨ path.data.getLast? = some '/' then path ++ b
  else path ++ "/" ++ b

/-- `os.path.join` over a list of further components. -/
def pathJoin (a : String) (ps : List String) : String :=
  ps.foldl joinOne a

/-- The URDF path both launchers derive:
`os.path.join(get_package_share_directory('uwrobot_description'), 'urdf', 'uwrobot.urdf')`. -/
def urdf_path (res : Resolver) : String :=
  pathJoin (res "uwrobot_description") ["urdf", "uwrobot.urdf"]

/-- The world path of the simulation launcher:
`os.path.join(pkg_model, 'world', 'empty.world')`. -/
def world_path (res : Resolver) : String :=
  pathJoin (res "uwrobot_description") ["world", "empty.world"]

/-- Shallow embedding of `generate_launch_description` of
`gazebo_launch.py`.  First component: the action list (or `none` when the
URDF open raises).  Second component: the file paths the function opened. -/
def gazebo_generate_launch_description (res : Resolver) (fs : Fs) :
    Option (List LaunchAction) × List String :=
  let pkg_gazebo := res "gazebo_ros"
  let pkg_model := res "uwrobot_description"
  let worldPath := pathJoin pkg_model ["world", "empty.world"]
  let urdfPath := pathJoin pkg_model ["urdf", "uwrobot.urdf"]
  match fs urdfPath with
  | none => (none, [urdfPath])
  | some robot_desc =>
    let robot_state_publisher := LaunchAction.node
      "robot_state_publisher" "robot_state_publisher"
      [("robot_description", ParamValue.str robot_desc),
       ("use_sim_time", ParamValue.bool true)] [] none
    let gazebo := LaunchAction.includeLaunch
      (pathJoin pkg_gazebo ["launch", "gazebo.launch.py"])
      [("verbose", "true"), ("world", worldPath)]
    let spawn := LaunchAction.node "gazebo_ros" "spawn_entity.py" []
      ["-topic", "/robot_description", "-entity", "zh_bot",
       "-x", "0", "-y", "0", "-z", "0.4"] (some "screen")
    let joint_state_spawner := LaunchAction.node "controller_manager" "spawner"
      [] ["joint_state_broadcaster"] (some "screen")
    let velocity_spawner := LaunchAction.node "controller_manager" "spawner"
      [] ["velocity_controller"] (some "screen")
    let steering_spawner := LaunchAction.node "controller_manager" "spawner"
      [] ["steering_controller"] (some "screen")
    (some [robot_state_publisher, gazebo, spawn,
           joint_state_spawner, velocity_spawner, steering_spawner],
     [urdfPath])

/-- Shallow embedding of `generate_launch_description` of
`rviz2_launch.py`.  `modelArg` is the value the launch runtime would
supply for the declared `model` launch argument; the script declares the
argument but never reads it back (no `LaunchConfiguration('model')`), so
the embedding never consumes it. -/
def rviz2_generate_launch_description (res : Resolver) (fs : Fs)
    (_modelArg : Option String) : Option (List LaunchAction) × List String :=
  let pkg_share := res "uwrobot_description"
  let model_path := pathJoin pkg_share ["urdf", "uwrobot.urdf"]
  let rviz_config_file := pathJoin pkg_share ["resource", "resource.rviz"]
  let action_declare_arg_mode_path := LaunchAction.declareLaunchArgument
    "model" model_path "URDF 的绝对路径"
  match fs model_path with
  | none => (none, [model_path])
  | some robot_description =>
    let robot_state_publisher_node := LaunchAction.node
      "robot_state_publisher" "robot_state_publisher"
      [("robot_description", ParamValue.str robot_description)] [] none
    let joint_state_publisher_node := LaunchAction.node
      "joint_state_publisher" "joint_state_publisher" [] [] none
    let rviz_node := LaunchAction.node "rviz2" "rviz2" []
      ["-d", rviz_config_file] none
    (some [action_declare_arg_mode_path, joint_state_publisher_node,
           robot_state_publisher_node, rviz_node],
     [model_path])

/-- Lookup in a parameter dictionary, first binding wins. -/
def paramLookup (ps : List (String × ParamValue)) (k : String) :
    Option ParamValue :=
  (ps.find? fun p => p.1 == k).map fun p => p.2

/-- The `robot_description` parameter value of the action at index `i` of
an action list, when that action is a node carrying one. -/
def embeddedRobotDescription (r : Option (List LaunchAction)) (i : Nat) :
    Option ParamValue :=
  (r.bind fun l => l[i]?).bind fun a =>
    match a with
    | LaunchAction.node _ _ ps _ _ => paramLookup ps "robot_description"
    | _ => none

/-- A concrete resolver used by the witnesses: every package resolves to
the same share prefix. -/
def demoRes : Resolver := fun _ => "/install/share"

/-- A concrete filesystem holding only the URDF file. -/
def demoFs : Fs := fun p =>
  if p = "/install/share/urdf/uwrobot.urdf" then some "robot-urdf-content"
  else none

/-- A filesystem with no files at all. -/
def emptyFs : Fs := fun _ => none

/-- The action list `gazebo_launch.py` returns on a successful read of
URDF contents `s`, in source order: state publisher, Gazebo include,
spawn-entity node, then the three controller spawners. -/
def simActionList (res : Resolver) (s : String) : List LaunchAction :=
  [LaunchAction.node "robot_state_publisher" "robot_state_publisher"
     [("robot_description", ParamValue.str s),
      ("use_sim_time", ParamValue.bool true)] [] none,
   LaunchAction.includeLaunch
     (pathJoin (res "gazebo_ros") ["launch", "gazebo.launch.py"])
     [("verbose", "true"), ("world", world_path res)],
   LaunchAction.node "gazebo_ros" "spawn_entity.py" []
     ["-topic", "/robot_description", "-entity", "zh_bot",
      "-x", "0", "-y", "0", "-z", "0.4"] (some "screen"),
   LaunchAction.node "controller_manager" "spawner" []
     ["joint_state_broadcaster"] (some "screen"),
   LaunchAction.node "controller_manager" "spawner" []
     ["velocity_controller"] (some "screen"),
   LaunchAction.node "controller_manager" "spawner" []
     ["steering_controller"] (some "screen")]

/-- The action list `rviz2_launch.py` returns on a successful read of URDF
contents `s`, in source order: the declared `model` argument, joint-state
publisher, robot-state publisher, rviz with its config file argument. -/
def rvizActionList (res : Resolver) (s : String) : List LaunchAction :=
  [LaunchAction.declareLaunchArgument "model" (urdf_path res) "URDF 的绝对路径",
   LaunchAction.node "joint_state_publisher" "joint_state_publisher" [] [] none,
   LaunchAction.node "robot_state_publisher" "robot_state_publisher"
     [("robot_description", ParamValue.str s)] [] none,
   LaunchAction.node "rviz2" "rviz2" []
     ["-d", pathJoin (res "uwrobot_description") ["resource", "resource.rviz"]] none]

/-- Evaluation of the simulation launcher when the URDF read succeeds. -/
theorem gazebo_eval_some (res : Resolver) (fs : Fs) (s : String)
    (h : fs (urdf_path res) = some s) :
    gazebo_generate_launch_description res fs =
      (some (simActionList res s), [urdf_path res]) := by
  unfold urdf_path at h
  simp [gazebo_generate_launch_description, simActionList, world_path,
    urdf_path, h]

/-- Evaluation of the simulation launcher when the URDF is missing. -/
theorem gazebo_eval_none (res : Resolver) (fs : Fs)
    (h : fs (urdf_path res) = none) :
    gazebo_generate_launch_description res fs = (none, [urdf_path res]) := by
  unfold urdf_path at h
  simp [gazebo_generate_launch_description, urdf_path, h]

/-- Evaluation of the visualization launcher when the URDF read succeeds. -/
theorem rviz2_eval_some (res : Resolver) (fs : Fs) (a : Option String)
    (s : String) (h : fs (urdf_path res) = some s) :
    rviz2_generate_launch_description res fs a =
      (some (rvizActionList res s), [urdf_path res]) := by
  unfold urdf_path at h
  simp [rviz2_generate_launch_description, rvizActionList, urdf_path, h]

/-- Evaluation of the visualization launcher when the URDF is missing. -/
theorem rviz2_eval_none (res : Resolver) (fs : Fs) (a : Option String)
    (h : fs (urdf_path res) = none) :
    rviz2_generate_launch_description res fs a = (none, [urdf_path res]) := by
  unfold urdf_path at h
  simp [rviz2_generate_launch_description, urdf_path, h]

/-- Claim C1: whenever the resolver and the URDF file read succeed, the
simulation launcher returns an action list of exactly 6 entries, in the
order: robot_state_publisher node, Gazebo include, spawn-entity node,
joint_state_broadcaster spawner, velocity_controller spawner,
steering_controller spawner. -/
theorem sim_launch_six_actions_ordered (res : Resolver) (fs : Fs)
    (s : String) (h : fs (urdf_path res) = some s) :
    ∃ l, (gazebo_generate_launch_description res fs).1 = some l ∧
      l.length = 6 ∧ l = simActionList res s := by
  rw [gazebo_eval_some res fs s h]
  exact ⟨simActionList res s, rfl, rfl, rfl⟩

/-- Witness for C1 at a concrete resolver and filesystem. -/
theorem sim_launch_six_actions_ordered_witness :
    demoFs (urdf_path demoRes) = some "robot-urdf-content" ∧
    ∃ l, (gazebo_generate_launch_description demoRes demoFs).1 = some l ∧
      l.length = 6 ∧ l = simActionList demoRes "robot-urdf-content" :=
  ⟨by decide,
   sim_launch_six_actions_ordered demoRes demoFs "robot-urdf-content" (by decide)⟩

/-- Claim C2, counterexample: at a concrete resolver and filesystem the
visualization launcher does return 4 actions, but the first of them is the
DeclareLaunchArgument for `model`, not the joint-state publisher node, so
the claimed order (joint-state publisher first) is false. -/
theorem viz_order_claim_counterexample :
    ∃ l, (rviz2_generate_launch_description demoRes demoFs none).1 = some l ∧
      l.length = 4 ∧
      l.head? = some (LaunchAction.declareLaunchArgument "model"
        "/install/share/urdf/uwrobot.urdf" "URDF 的绝对路径") ∧
      l.head? ≠ some (LaunchAction.node "joint_state_publisher"
        "joint_state_publisher" [] [] none) := by
  refine ⟨rvizActionList demoRes "robot-urdf-content", ?_, by decide, by decide, by decide⟩
  rw [rviz2_eval_some demoRes demoFs none "robot-urdf-content" (by decide)]

/-- Claim C2 as amended: whenever the resolver and the URDF file read
succeed, the visualization launcher returns an action list of exactly 4
entries in the order: the declared `model` launch argument, joint-state
publisher, robot-state publisher, then the viewer process with a config
file argument. -/
theorem viz_launch_four_actions_ordered (res : Resolver) (fs : Fs)
    (a : Option String) (s : String) (h : fs (urdf_path res) = some s) :
    ∃ l, (rviz2_generate_launch_description res fs a).1 = some l ∧
      l.length = 4 ∧ l = rvizActionList res s := by
  rw [rviz2_eval_some res fs a s h]
  exact ⟨rvizActionList res s, rfl, rfl, rfl⟩

/-- Witness for the amended C2 at a concrete resolver and filesystem. -/
theorem viz_launch_four_actions_ordered_witness :
    demoFs (urdf_path demoRes) = some "robot-urdf-content" ∧
    ∃ l, (rviz2_generate_launch_description demoRes demoFs none).1 = some l ∧
      l.length = 4 ∧ l = rvizActionList demoRes "robot-urdf-content" :=
  ⟨by decide,
   viz_launch_four_actions_ordered demoRes demoFs none "robot-urdf-content" (by decide)⟩

/-- Claim C3: for every URDF content `s` readable at the resolved path,
the parameter dictionary of the robot_state_publisher node — the first
action of the simulation launcher and the third action of the
visualization launcher — maps `robot_description` to exactly `s`, with no
transformation. -/
theorem robot_description_param_verbatim (res : Resolver) (fs : Fs)
    (s : String) (h : fs (urdf_path res) = some s) :
    (∃ ps, ((gazebo_generate_launch_description res fs).1.bind
        fun l => l[0]?) = some (LaunchAction.node "robot_state_publisher"
          "robot_state_publisher" ps [] none) ∧
      paramLookup ps "robot_description" = some (ParamValue.str s)) ∧
    ∀ a : Option String,
      ∃ ps, ((rviz2_generate_launch_description res fs a).1.bind
        fun l => l[2]?) = some (LaunchAction.node "robot_state_publisher"
          "robot_state_publisher" ps [] none) ∧
      paramLookup ps "robot_description" = some (ParamValue.str s) := by
  constructor
  · refine ⟨[("robot_description", ParamValue.str s),
      ("use_sim_time", ParamValue.bool true)], ?_, by rfl⟩
    rw [gazebo_eval_some res fs s h]
    rfl
  · intro a
    refine ⟨[("robot_description", ParamValue.str s)], ?_, by rfl⟩
    rw [rviz2_eval_some res fs a s h]
    rfl

/-- Witness for C3 at a concrete resolver and filesystem. -/
theorem robot_description_param_verbatim_witness :
    demoFs (urdf_path demoRes) = some "robot-urdf-content" ∧
    ((∃ ps, ((gazebo_generate_launch_description demoRes demoFs).1.bind
        fun l => l[0]?) = some (LaunchAction.node "robot_state_publisher"
          "robot_state_publisher" ps [] none) ∧
      paramLookup ps "robot_description" =
        some (ParamValue.str "robot-urdf-content")) ∧
    ∀ a : Option String,
      ∃ ps, ((rviz2_generate_launch_description demoRes demoFs a).1.bind
        fun l => l[2]?) = some (LaunchAction.node "robot_state_publisher"
          "robot_state_publisher" ps [] none) ∧
      paramLookup ps "robot_description" =
        some (ParamValue.str "robot-urdf-content")) :=
  ⟨by decide,
   robot_description_param_verbatim demoRes demoFs "robot-urdf-content" (by decide)⟩

/-- Claim C4: when the URDF file at the resolved path is missing, either
launcher propagates the error and returns no action list. -/
theorem missing_urdf_no_action_list (res : Resolver) (fs : Fs)
    (h : fs (urdf_path res) = none) :
    (gazebo_generate_launch_description res fs).1 = none ∧
    ∀ a : Option String,
      (rviz2_generate_launch_description res fs a).1 = none := by
  constructor
  · rw [gazebo_eval_none res fs h]
  · intro a
    rw [rviz2_eval_none res fs a h]

/-- Witness for C4 on the empty filesystem. -/
theorem missing_urdf_no_action_list_witness :
    emptyFs (urdf_path demoRes) = none ∧
    ((gazebo_generate_launch_description demoRes emptyFs).1 = none ∧
    ∀ a : Option String,
      (rviz2_generate_launch_description demoRes emptyFs a).1 = none) :=
  ⟨rfl, missing_urdf_no_action_list demoRes emptyFs rfl⟩

/-- Claim C5: the second action of the simulation launcher is the Gazebo
include, whose `world` launch argument is the resolved
`uwrobot_description` share path joined with `world` and `empty.world`. -/
theorem gazebo_world_argument (res : Resolver) (fs : Fs) (s : String)
    (h : fs (urdf_path res) = some s) :
    world_path res = pathJoin (res "uwrobot_description")
      ["world", "empty.world"] ∧
    ((gazebo_generate_launch_description res fs).1.bind fun l => l[1]?) =
      some (LaunchAction.includeLaunch
        (pathJoin (res "gazebo_ros") ["launch", "gazebo.launch.py"])
        [("verbose", "true"), ("world", world_path res)]) := by
  refine ⟨rfl, ?_⟩
  rw [gazebo_eval_some res fs s h]
  rfl

/-- Witness for C5 at a concrete resolver and filesystem. -/
theorem gazebo_world_argument_witness :
    demoFs (urdf_path demoRes) = some "robot-urdf-content" ∧
    (world_path demoRes = pathJoin (demoRes "uwrobot_description")
      ["world", "empty.world"] ∧
    ((gazebo_generate_launch_description demoRes demoFs).1.bind
        fun l => l[1]?) =
      some (LaunchAction.includeLaunch
        (pathJoin (demoRes "gazebo_ros") ["launch", "gazebo.launch.py"])
        [("verbose", "true"), ("world", world_path demoRes)])) :=
  ⟨by decide, gazebo_world_argument demoRes demoFs "robot-urdf-content" (by decide)⟩

/-- Claim C6: the simulation launcher's action list has 6 entries and ends
with exactly three controller_manager `spawner` nodes whose single
arguments are, in order, joint_state_broadcaster, velocity_controller and
steering_controller. -/
theorem controllers_spawned_in_sequence (res : Resolver) (fs : Fs)
    (s : String) (h : fs (urdf_path res) = some s) :
    ((gazebo_generate_launch_description res fs).1.map
      fun l => l.length) = some 6 ∧
    ((gazebo_generate_launch_description res fs).1.map
      fun l => l.drop 3) = some
      [LaunchAction.node "controller_manager" "spawner" []
         ["joint_state_broadcaster"] (some "screen"),
       LaunchAction.node "controller_manager" "spawner" []
         ["velocity_controller"] (some "screen"),
       LaunchAction.node "controller_manager" "spawner" []
         ["steering_controller"] (some "screen")] := by
  rw [gazebo_eval_some res fs s h]
  exact ⟨rfl, rfl⟩

/-- Witness for C6 at a concrete resolver and filesystem. -/
theorem controllers_spawned_in_sequence_witness :
    demoFs (urdf_path demoRes) = some "robot-urdf-content" ∧
    (((gazebo_generate_launch_description demoRes demoFs).1.map
      fun l => l.length) = some 6 ∧
    ((gazebo_generate_launch_description demoRes demoFs).1.map
      fun l => l.drop 3) = some
      [LaunchAction.node "controller_manager" "spawner" []
         ["joint_state_broadcaster"] (some "screen"),
       LaunchAction.node "controller_manager" "spawner" []
         ["velocity_controller"] (some "screen"),
       LaunchAction.node "controller_manager" "spawner" []
         ["steering_controller"] (some "screen")]) :=
  ⟨by decide,
   controllers_spawned_in_sequence demoRes demoFs "robot-urdf-content" (by decide)⟩

/-- Claim C7: the simulation assembly takes no inputs beyond the fixed
package and file names — its result is unchanged under any resolver and
filesystem that agree on the two resolved packages and on the single URDF
path — and the only file it ever opens is the URDF at that path. -/
theorem sim_frame_single_file_read (res res2 : Resolver) (fs fs2 : Fs)
    (hg : res "gazebo_ros" = res2 "gazebo_ros")
    (hm : res "uwrobot_description" = res2 "uwrobot_description")
    (hf : fs (urdf_path res) = fs2 (urdf_path res)) :
    gazebo_generate_launch_description res fs =
      gazebo_generate_launch_description res2 fs2 ∧
    (gazebo_generate_launch_description res fs).2 = [urdf_path res] := by
  have hp : urdf_path res = urdf_path res2 := by
    unfold urdf_path
    rw [hm]
  have hf2 : fs (urdf_path res) = fs2 (urdf_path res2) := by rw [hf, hp]
  constructor
  · cases h2 : fs2 (urdf_path res2) with
    | none =>
      rw [gazebo_eval_none res fs (hf2.trans h2),
        gazebo_eval_none res2 fs2 h2, hp]
    | some s =>
      rw [gazebo_eval_some res fs s (hf2.trans h2),
        gazebo_eval_some res2 fs2 s h2, hp]
      unfold simActionList world_path
      rw [hg, hm]
  · cases h2 : fs (urdf_path res) with
    | none => rw [gazebo_eval_none res fs h2]
    | some s => rw [gazebo_eval_some res fs s h2]

/-- Witness for C7 at a concrete resolver and filesystem. -/
theorem sim_frame_single_file_read_witness :
    (demoRes "gazebo_ros" = demoRes "gazebo_ros" ∧
     demoRes "uwrobot_description" = demoRes "uwrobot_description" ∧
     demoFs (urdf_path demoRes) = demoFs (urdf_path demoRes)) ∧
    (gazebo_generate_launch_description demoRes demoFs =
       gazebo_generate_launch_description demoRes demoFs ∧
     (gazebo_generate_launch_description demoRes demoFs).2 =
       [urdf_path demoRes]) :=
  ⟨⟨rfl, rfl, rfl⟩,
   sim_frame_single_file_read demoRes demoRes demoFs demoFs rfl rfl rfl⟩

/-- Claim C8: both launchers return exactly the sequence of descriptors
declared in their source, in declared order; the embedding is a pure
function of resolver and filesystem, so the returned list is a value that
nothing in this code mutates afterwards. -/
theorem returned_lists_match_declared_sequence (res : Resolver) (fs : Fs)
    (a : Option String) (s : String) (h : fs (urdf_path res) = some s) :
    (gazebo_generate_launch_description res fs).1 =
      some (simActionList res s) ∧
    (rviz2_generate_launch_description res fs a).1 =
      some (rvizActionList res s) := by
  rw [gazebo_eval_some res fs s h, rviz2_eval_some res fs a s h]
  exact ⟨rfl, rfl⟩

/-- Witness for C8 at a concrete resolver and filesystem. -/
theorem returned_lists_match_declared_sequence_witness :
    demoFs (urdf_path demoRes) = some "robot-urdf-content" ∧
    ((gazebo_generate_launch_description demoRes demoFs).1 =
       some (simActionList demoRes "robot-urdf-content") ∧
     (rviz2_generate_launch_description demoRes demoFs none).1 =
       some (rvizActionList demoRes "robot-urdf-content")) :=
  ⟨by decide,
   returned_lists_match_declared_sequence demoRes demoFs none
     "robot-urdf-content" (by decide)⟩

/-- Claim C9: the `model` launch argument is declared but never consumed:
for any two supplied values the visualization launcher returns the same
result, and the URDF it opens is always the default path
`pkg_share/urdf/uwrobot.urdf`. -/
theorem model_argument_never_consumed (res : Resolver) (fs : Fs)
    (a b : Option String) :
    rviz2_generate_launch_description res fs a =
      rviz2_generate_launch_description res fs b ∧
    (rviz2_generate_launch_description res fs a).2 = [urdf_path res] := by
  refine ⟨rfl, ?_⟩
  cases h2 : fs (urdf_path res) with
  | none => rw [rviz2_eval_none res fs a h2]
  | some s => rw [rviz2_eval_some res fs a s h2]

/-- Claim C10: both launchers read the URDF from the same resolved path,
so the `robot_description` string embedded in the simulation launcher's
state-publisher node (action 0) equals the one embedded by the
visualization launcher (action 2); both are exactly the file contents at
that path. -/
theorem both_launchers_embed_same_urdf (res : Resolver) (fs : Fs)
    (a : Option String) :
    embeddedRobotDescription
        (gazebo_generate_launch_description res fs).1 0 =
      embeddedRobotDescription
        (rviz2_generate_launch_description res fs a).1 2 ∧
    embeddedRobotDescription
        (gazebo_generate_launch_description res fs).1 0 =
      (fs (urdf_path res)).map ParamValue.str := by
  cases h2 : fs (urdf_path res) with
  | none =>
    rw [gazebo_eval_none res fs h2, rviz2_eval_none res fs a h2]
    exact ⟨rfl, rfl⟩
  | some s =>
    rw [gazebo_eval_some res fs s h2, rviz2_eval_some res fs a s h2]
    exact ⟨rfl, rfl⟩

end LaunchSpec
